import Mathlib

/-!
Shallow embedding of the device directory aggregation layer of an IoT status
backend: the repository layer (`repo.py`), the device-ledger adapter
(`data_sources/device_ledger.py`), the fleet-index adapter
(`data_sources/fleet_index.py`), the schema-registry adapter
(`data_sources/schema_registry.py`) and the device model builder (`model.py`).

Python strings are embedded as `List Char`, Python `None` as `Option.none`,
dictionaries with a known key set as structures of `Option` fields (a missing
key and a key stored with a `NULL` value are conflated as `none`), exceptions
as `Except` errors, and timestamps as exact rationals.  External services
(the DynamoDB stores, the fleet search index, the md5 digest, ISO timestamp
parsing and the page-token serialization) appear as explicit oracle
parameters or as list-modelled tables with DynamoDB scan semantics.
-/

/-- Custom device label enum (`model.DeviceCustomLabel`, a `StrEnum`). -/
inductive DeviceCustomLabel where
  | deployed
  | undeployed
  | periodic_batch
  | deactivated
deriving DecidableEq

/-- The string value of a label (`DeviceCustomLabel.<member>.value`). -/
def DeviceCustomLabel.toValue : DeviceCustomLabel → List Char
  | .deployed => "DEPLOYED".data
  | .undeployed => "UNDEPLOYED".data
  | .periodic_batch => "PERIODIC_BATCH".data
  | .deactivated => "DEACTIVATED".data

/-- `DeviceCustomLabel.from_value`: the first member whose value matches, in
declaration order, else `None`. -/
def DeviceCustomLabel.from_value (v : List Char) : Option DeviceCustomLabel :=
  if v = "DEPLOYED".data then some .deployed
  else if v = "UNDEPLOYED".data then some .undeployed
  else if v = "PERIODIC_BATCH".data then some .periodic_batch
  else if v = "DEACTIVATED".data then some .deactivated
  else none

/-- One statement of the `policyDoc` of a ledger item (read by
`repo._get_streaming_topic`: `stmt["Action"]`, `stmt["Resource"]`). -/
structure PolicyStatement where
  action : List Char
  resource : List Char
deriving DecidableEq

/-- The `policyDoc` attribute: `{"Statement": [...]}`. -/
structure PolicyDoc where
  statement : List PolicyStatement
deriving DecidableEq

/-- A device-ledger DynamoDB item, with every attribute the embedded code
reads.  `some` is a present attribute, `none` a missing (or `NULL`) one.
The source reads both a camel-case `jsonSchema` key (`device_ledger.find_device`)
and a snake-case `json_schema` key (`repo.get_device`); they are distinct
dictionary keys and so distinct fields here. -/
structure LedgerRecord where
  serialNumber : Option (List Char) := none
  jwtGroup : Option (List Char) := none
  org : Option (List Char) := none
  proj : Option (List Char) := none
  customLabel : Option (List Char) := none
  provStatus : Option (List Char) := none
  provTimestamp : Option (List Char) := none
  regStatus : Option (List Char) := none
  regTimestamp : Option (List Char) := none
  jsonSchema : Option (List Char) := none
  json_schema : Option (List Char) := none
  policyDoc : Option PolicyDoc := none
deriving DecidableEq

/-- The empty dictionary `{}` that `get_item(...).get("Item", {})` yields for a
missing key in `device_ledger.find_device`. -/
def LedgerRecord.emptyDict : LedgerRecord := {}

/-- Python truthiness of the modelled ledger dictionary: `{}` is falsy. -/
def LedgerRecord.isFalsy (r : LedgerRecord) : Bool :=
  r = LedgerRecord.emptyDict

/-- Group-name canonicalization (`repo._canonicalize_group_name`):
`"-".join(group.lower().split(" "))`, i.e. lowercase every character and
replace each space by a hyphen. -/
def canonicalizeGroupName (group : List Char) : List Char :=
  group.map (fun c => if c.toLower = ' ' then '-' else c.toLower)

/-- `repo._maybe_canonicalize_group_name`. -/
def maybeCanonicalizeGroupName (group : Option (List Char)) : Option (List Char) :=
  group.map canonicalizeGroupName

/-- Errors raised by the embedded code: `AppError` carries its HTTP-like
status code and message; `fleetDeviceNotFound` models
`fleet_index.DeviceNotFoundError`; `ledgerConditionFailed` models the
DynamoDB `ConditionalCheckFailedException`; `otherError` models any other
Python exception (for example a transport error from an HTTP client). -/
inductive PyErr where
  | appError (status : Nat) (msg : List Char)
  | fleetDeviceNotFound (msg : List Char)
  | ledgerConditionFailed
  | otherError (tag : List Char)
deriving DecidableEq

instance {ε α : Type} [DecidableEq ε] [DecidableEq α] : DecidableEq (Except ε α) := fun
  | .ok a, .ok b => decidable_of_iff (a = b) (by simp)
  | .ok _, .error _ => .isFalse (by simp)
  | .error _, .ok _ => .isFalse (by simp)
  | .error e, .error f => decidable_of_iff (e = f) (by simp)

/-- `AppError.INTERNAL_ERROR_CODE`. -/
def internalErrorCode : Nat := 500

/-- `AppError.invalid_argument`. -/
def appInvalidArgument (msg : List Char) : PyErr := .appError 400 msg

/-- `AppError.not_found`. -/
def appNotFound (msg : List Char) : PyErr := .appError 404 msg

/-- `AppError.internal_error`. -/
def appInternalError (msg : List Char) : PyErr := .appError internalErrorCode msg

/-- Python truthiness of an optional string (`None` and `""` are falsy). -/
def pyTruthy : Option (List Char) → Bool
  | none => false
  | some [] => false
  | some (_ :: _) => true

/-- Characters of the device-name allow-list regex `[a-zA-Z0-9:_-]`, shared by
`repo.device_name_regex` and `fleet_index.device_name_regex`. -/
def isDeviceNameChar (c : Char) : Bool :=
  ('a' ≤ c ∧ c ≤ 'z') ∨ ('A' ≤ c ∧ c ≤ 'Z') ∨ ('0' ≤ c ∧ c ≤ '9')
    ∨ c = ':' ∨ c = '_' ∨ c = '-'

/-- `device_name_regex.fullmatch`: the whole name consists of allow-list
characters and is nonempty (the regex body is a `+` repetition). -/
def deviceNameFullmatch (s : List Char) : Bool :=
  !s.isEmpty && s.all isDeviceNameChar

/-- The double-quote character, written by code point to keep it out of
quoted literals. -/
def doubleQuoteChar : Char := Char.ofNat 34

/-- Python `'"' in s` on an optional string, false for `None` (the shape of
the quote guards in `fleet_index.find_device`). -/
def optionContainsQuote : Option (List Char) → Bool
  | some s => doubleQuoteChar ∈ s
  | none => false

/-- The tag of a composite cursor: the repo encodes which store a cursor
continues with the module-level type-alias objects `LedgerPage` and
`FleetPage` (`repo.py` lines 14-15); `_dump_page` compares them by object
identity, so they behave as a two-valued tag. -/
inductive PageTag where
  | ledger
  | fleet
deriving DecidableEq

/-- `repo._load_page`: split a composite cursor into its
`(ledger inner, fleet inner)` parts.  An empty or missing cursor is a first
page; an unrecognized prefix is an invalid-argument error. -/
def loadPage : Option (List Char) → Except PyErr (Option (List Char) × Option (List Char))
  | none => .ok (none, none)
  | some [] => .ok (none, none)
  | some ('l' :: rest) => .ok (some rest, none)
  | some ('f' :: rest) => .ok (none, some rest)
  | some (_ :: _) => .error (appInvalidArgument "invalid page key".data)

/-- `repo._dump_page`: prefix the store-native cursor with the source tag. -/
def dumpPage (tag : PageTag) (page : List Char) : List Char :=
  match tag with
  | .ledger => 'l' :: page
  | .fleet => 'f' :: page

/-- The scan filter of `device_ledger._build_scan_params` applied to one item,
under DynamoDB legacy-condition semantics: a comparison against a missing
attribute evaluates to false, and the `NULL` comparator holds exactly when the
attribute is missing.  An empty `name_like` is falsy and adds no condition;
a label filter adds an `EQ` condition on `customLabel`, and its absence adds a
`NE DEACTIVATED` condition on `customLabel`. -/
def ledgerScanPred (provider organization nameLike : Option (List Char))
    (label : Option DeviceCustomLabel) (unprovisionedOnly : Bool)
    (r : LedgerRecord) : Bool :=
  (match provider with
   | some p => r.jwtGroup = some p
   | none => true) &&
  (match organization with
   | some o => r.org = some o
   | none => true) &&
  (match nameLike with
   | some [] => true
   | some (c :: cs) =>
      match r.serialNumber with
      | some s => (c :: cs).isPrefixOf s
      | none => false
   | none => true) &&
  (match label with
   | some l => r.customLabel = some l.toValue
   | none =>
      match r.customLabel with
      | some v => v ≠ DeviceCustomLabel.deactivated.toValue
      | none => false) &&
  (if unprovisionedOnly then r.provStatus = none else true)

/-- The `Limit` parameter set by `_scan_table` each iteration: `page_size` when
it is truthy (`if page_size:`), otherwise absent. -/
def scanLimit : Option Nat → Option Nat
  | none => none
  | some 0 => none
  | some (n + 1) => some (n + 1)

/-- The `while True` fetch loop of `device_ledger._scan_table`, for the
item-collecting collector of `list_devices`.  Each iteration is one
underlying DynamoDB `scan` call: it evaluates up to `Limit` items from the
position the exclusive start key points at (the key is modelled as the
remaining table suffix `rem`), keeps the evaluated items that pass the scan
filter, and reports a `LastEvaluatedKey` exactly when rows remain beyond the
evaluated ones.  `resultSize` mirrors `result_size += collector(result)`
where the collector returns the total accumulated length, so from the second
fetch on it overcounts the number of collected items; the loop continues
while `page_size is None or result_size < page_size` and a
`LastEvaluatedKey` was returned.  The loop consumes at least one table row
per iteration whenever it continues, so with fuel `rem.length + 1` the
fuel-exhaustion branch is unreachable; fuel only makes the recursion
structural. -/
def scanTableLoop (pred : LedgerRecord → Bool) (pageSize : Option Nat) :
    Nat → List LedgerRecord → List LedgerRecord → Nat →
    List LedgerRecord × Option (List LedgerRecord)
  | 0, rem, acc, _ => (acc, if rem.isEmpty then none else some rem)
  | fuel + 1, rem, acc, resultSize =>
    let cnt := match scanLimit pageSize with
      | none => rem.length
      | some l => min l rem.length
    let batch := (rem.take cnt).filter pred
    let rest := rem.drop cnt
    let acc2 := acc ++ batch
    let resultSize2 := resultSize + acc2.length
    if rest.isEmpty then
      (acc2, none)
    else if pageSize = none ∨ resultSize2 < pageSize.getD 0 then
      scanTableLoop pred pageSize fuel rest acc2 resultSize2
    else
      (acc2, some rest)

/-- `device_ledger._scan_table` plus the page decode/encode of
`device_ledger.list_devices`: the base64/JSON serialization of the
`LastEvaluatedKey` is an injective external codec and is modelled as the
identity on decoded keys, so a page is `Option (List LedgerRecord)` (the
remaining table suffix).  Returns `(next_page, items)` like the adapter. -/
def deviceLedgerListDevices (table : List LedgerRecord)
    (provider organization nameLike : Option (List Char))
    (label : Option DeviceCustomLabel) (page : Option (List LedgerRecord))
    (pageSize : Option Nat) (unprovisionedOnly : Bool) :
    Option (List LedgerRecord) × List LedgerRecord :=
  let pred := ledgerScanPred provider organization nameLike label unprovisionedOnly
  let start := page.getD table
  let (items, nextKey) := scanTableLoop pred pageSize (start.length + 1) start [] 0
  (nextKey, items)

/-- The `attributes` dictionary of a fleet-index thing, restricted to the
attribute names the embedded code reads (`constants.ThingAttributeNames`).
A missing `attributes` key yields the all-absent default. -/
structure FleetAttrs where
  sensorProvider : Option (List Char) := none
  sensorOrganization : Option (List Char) := none
deriving DecidableEq

/-- The `connectivity` value of a fleet-index thing: `connected` and
`timestamp` are indexed directly by `model._connectivity_to_model`,
`disconnectReason` through `.get`.  The timestamp is in milliseconds. -/
structure FleetConnectivity where
  connected : Bool
  timestamp : Int
  disconnectReason : Option (List Char) := none
deriving DecidableEq

/-- A fleet-index search result item ("thing").  `thingName` is always
present in search results and is indexed directly by the source; a falsy
(`None`) `connectivity` value is modelled as `none`. -/
structure FleetEntity where
  thingName : List Char
  attributes : FleetAttrs := {}
  connectivity : Option FleetConnectivity := none
deriving DecidableEq

/-- `constants.DISCONNECT_REASON_DESCRIPTIONS` as a lookup function:
`some` on the eleven known reason codes, `none` (a Python `KeyError`)
otherwise. -/
def disconnectReasonDescription (reason : List Char) : Option (List Char) :=
  if reason = "AUTH_ERROR".data then
    some "The client failed to authenticate or authorization failed.".data
  else if reason = "CLIENT_ERROR".data then
    some ("The client did something wrong that causes it to disconnect. " ++
      "For example, a client will be disconnected for sending more " ++
      "than 1 MQTT CONNECT packet on the same connection or if the " ++
      "client attempts to publish with a payload that exceeds the " ++
      "payload limit.").data
  else if reason = "CLIENT_INITIATED_DISCONNECT".data then
    some ("The client indicates that it will disconnect. " ++
      "The client can do this by sending either a " ++
      "MQTT DISCONNECT control packet or a Close " ++
      "frame if the client is using a WebSocket " ++
      "connection.").data
  else if reason = "CONNECTION_LOST".data then
    some ("The client-server connection is cut off. This can happen " ++
      "during a period of high network latency or when the " ++
      "internet connection is lost.").data
  else if reason = "DUPLICATE_CLIENTID".data then
    some ("The client is using a client ID that is already in " ++
      "use. In this case, the client that is already " ++
      "connected will be disconnected with this disconnect " ++
      "reason.").data
  else if reason = "FORBIDDEN_ACCESS".data then
    some ("The client is not allowed to be connected. For example, " ++
      "a client with a denied IP address will fail to connect.").data
  else if reason = "MQTT_KEEP_ALIVE_TIMEOUT".data then
    some ("If there is no client-server communication for " ++
      "1.5x of the client\x27s keep-alive time, the client " ++
      "is disconnected.").data
  else if reason = "SERVER_ERROR".data then
    some "Disconnected due to unexpected server issues.".data
  else if reason = "SERVER_INITIATED_DISCONNECT".data then
    some ("Server intentionally disconnects a client for " ++
      "operational reasons.").data
  else if reason = "THROTTLED".data then
    some "The client is disconnected for exceeding a throttling limit.".data
  else if reason = "WEBSOCKET_TTL_EXPIRATION".data then
    some ("The client is disconnected because a WebSocket " ++
      "has been connected longer than its time-to-live " ++
      "value.").data
  else none

/-- Connectivity of the merged device view (`model.DeviceConnectivity`).
Timestamps are seconds since epoch, modelled as exact rationals. -/
structure DeviceConnectivity where
  connected : Bool
  timestamp : Option ℚ
  disconnectReason : Option (List Char)
  disconnectReasonDescription : Option (List Char)
deriving DecidableEq

/-- `model.DeviceInfo`, built from a ledger record. -/
structure DeviceInfo where
  organization : List Char
  project : List Char
  provisioningStatus : Option (List Char)
  provisioningTimestamp : Option ℚ
  registrationStatus : Option (List Char)
  registrationTimestamp : Option ℚ
deriving DecidableEq

/-- `model.DeviceSchemaSpec`. -/
structure DeviceSchemaSpec where
  id : Option (List Char)
  provider : Option (List Char)
  schema : List Char
  title : List Char
  version : Int
deriving DecidableEq

/-- The dictionary produced by `schema_registry.get_schema_by_hash` and
consumed by `model.schema_spec_entity_to_model`: every key is present, but
`id` and `jwtGroup` may carry a `None` value. -/
structure SchemaEntityDict where
  id : Option (List Char)
  title : List Char
  version : Int
  jwtGroup : Option (List Char)
  jsonSchema : List Char
deriving DecidableEq

/-- The merged `Device` record (`model.Device`).  `TypedDict` keys that are
conditionally present are `Option` fields with `none` for an absent key;
`label` and `lastStreamBatchTimestamp` can be present with a `None` value,
hence the nested options. -/
structure Device where
  name : List Char
  provider : Option (List Char)
  organization : Option (List Char)
  connectivity : Option DeviceConnectivity
  deviceInfo : Option DeviceInfo := none
  label : Option (Option DeviceCustomLabel) := none
  dataSchema : Option (List Char) := none
  schemaSpec : Option DeviceSchemaSpec := none
  streamPreview : Option (List Char) := none
  lastStreamBatchTimestamp : Option (Option ℚ) := none
deriving DecidableEq

/-- `model.schema_spec_entity_to_model`. -/
def schemaSpecEntityToModel (entity : SchemaEntityDict) : DeviceSchemaSpec :=
  { id := entity.id
    provider := entity.jwtGroup
    schema := entity.jsonSchema
    title := entity.title
    version := entity.version }

/-- `model._connectivity_to_model`: `some` result is the derived connectivity
dictionary, `none` result (only possible on a present, truthy `connectivity`
with an unknown disconnect reason) is the `KeyError` the direct table index
`DISCONNECT_REASON_DESCRIPTIONS[disconnect_reason]` would raise. -/
def connectivityToModel (fleetEntity : Option FleetEntity)
    (useDefaultUnprovisioned : Bool) : Option (Option DeviceConnectivity) :=
  match fleetEntity.bind (·.connectivity) with
  | some c =>
    match c.disconnectReason with
    | some reason =>
      match disconnectReasonDescription reason with
      | some descr =>
        some (some
          { connected := c.connected
            timestamp := if c.timestamp > 0 then some ((c.timestamp : ℚ) / 1000) else none
            disconnectReason := some reason
            disconnectReasonDescription := some descr })
      | none => none
    | none =>
      some (some
        { connected := c.connected
          timestamp := if c.timestamp > 0 then some ((c.timestamp : ℚ) / 1000) else none
          disconnectReason := none
          disconnectReasonDescription := none })
  | none =>
    if useDefaultUnprovisioned then
      some (some
        { connected := false
          timestamp := none
          disconnectReason := some "NOT_PROVISIONED".data
          disconnectReasonDescription := some "The client has not been provisioned yet.".data })
    else
      some none

/-- `model._iso_to_timestamp_or_none` with `datetime.fromisoformat(...).timestamp()`
abstracted as the external total parse function `isoParse`; the `Z`-suffix
normalization is part of the source and is embedded. -/
def isoToTimestampOrNone (isoParse : List Char → ℚ) :
    Option (List Char) → Option ℚ
  | none => none
  | some s =>
    if s ≠ [] ∧ s.getLast? = some 'Z' then
      some (isoParse (s.dropLast ++ "+00:00".data))
    else
      some (isoParse s)

/-- `model._device_info_to_model`: `none` is the `KeyError` raised when the
directly indexed `org` or `proj` attribute is missing. -/
def deviceInfoToModel (isoParse : List Char → ℚ) (r : LedgerRecord) :
    Option DeviceInfo := do
  let org ← r.org
  let proj ← r.proj
  some
    { organization := org
      project := proj
      provisioningStatus := r.provStatus
      provisioningTimestamp := isoToTimestampOrNone isoParse r.provTimestamp
      registrationStatus := r.regStatus
      registrationTimestamp := isoToTimestampOrNone isoParse r.regTimestamp }

/-- `model.device_entity_to_model`.  A `none` result models the exceptions the
Python function can raise: the `assert` when both entities are absent, and
`KeyError`s from direct dictionary indexing (`serialNumber` when there is no
fleet entity, `org`/`proj` for the device info, an unknown disconnect
reason). -/
def deviceEntityToModel (isoParse : List Char → ℚ)
    (fleetEntity : Option FleetEntity) (ledgerEntity : Option LedgerRecord)
    (schemaEntity : Option SchemaEntityDict)
    (streamPreview : Option (List Char × Option ℚ))
    (ledgerEntityUnprovisioned : Bool) : Option Device := do
  if fleetEntity = none ∧ ledgerEntity = none then
    none
  let fleetEntityAttrs := ((fleetEntity.map (·.attributes)).getD {})
  let provider :=
    match ledgerEntity with
    | some l =>
      match l.jwtGroup with
      | some g => some g
      | none => fleetEntityAttrs.sensorProvider
    | none => fleetEntityAttrs.sensorProvider
  let organization ←
    match ledgerEntity with
    | some l =>
      match l.org with
      | some o => some (some o)
      | none => none
    | none => some fleetEntityAttrs.sensorOrganization
  let lastStreamTs := streamPreview.map (·.2)
  let schemaModel := schemaEntity.map schemaSpecEntityToModel
  let label := (ledgerEntity.map (·.customLabel)).getD none
  let name ←
    match fleetEntity with
    | some f => some f.thingName
    | none => ledgerEntity.bind (·.serialNumber)
  let connectivity ← connectivityToModel fleetEntity ledgerEntityUnprovisioned
  let deviceInfo ←
    match ledgerEntity with
    | some l => (deviceInfoToModel isoParse l).map some
    | none => some none
  some
    { name := name
      provider := provider
      organization := organization
      connectivity := connectivity
      deviceInfo := deviceInfo
      streamPreview := streamPreview.map (·.1)
      lastStreamBatchTimestamp :=
        match streamPreview with
        | some _ => some (lastStreamTs.getD none)
        | none => none
      dataSchema := schemaModel.map (·.schema)
      schemaSpec := schemaModel
      label :=
        match ledgerEntity, label with
        | some _, some raw => some (DeviceCustomLabel.from_value raw)
        | _, _ => none }

/-- `device_ledger.find_device`: `get_item` on the serial-number key yields the
stored item or the empty dictionary; the camel-case `jsonSchema` attribute is
normalized from the placeholder `"\x7b\x7d"` to `None`; the result is the item
unless a given provider/organization filter mismatches a present attribute, in
which case it is Python `None` (here `none`).  A missing item therefore comes
back as `some LedgerRecord.emptyDict`, not `none`. -/
def deviceLedgerFindDevice (table : List LedgerRecord)
    (provider organization : Option (List Char)) (deviceName : List Char) :
    Option LedgerRecord :=
  let deviceInfo := (table.find? (·.serialNumber = some deviceName)).getD LedgerRecord.emptyDict
  let deviceInfo :=
    if deviceInfo.jsonSchema = some "\x7b\x7d".data then
      { deviceInfo with jsonSchema := none }
    else deviceInfo
  let deviceProvider := deviceInfo.jwtGroup
  let deviceOrganization := deviceInfo.org
  if (¬pyTruthy provider ∨ ¬pyTruthy deviceProvider ∨ deviceProvider = provider)
      ∧ (¬pyTruthy organization ∨ ¬pyTruthy deviceOrganization
          ∨ deviceOrganization = organization) then
    some deviceInfo
  else
    none

/-- The single-item update of `device_ledger.update_device_label`: a
conditional `update_item` on the record, setting `customLabel` (to `NULL`
when the new label is `None`). -/
def ledgerApplyLabel (label : Option DeviceCustomLabel) (r : LedgerRecord) :
    LedgerRecord :=
  { r with customLabel := label.map DeviceCustomLabel.toValue }

/-- `device_ledger.update_device_label`: builds the condition expression from
the given provider, organization and expected label, then issues a
conditional `update_item` keyed on the serial number.  DynamoDB semantics:
with no condition the update is an upsert that creates the item when the key
is absent; with a condition, a missing item or a failing condition raises
`ConditionalCheckFailedException`.  Returns the updated table. -/
def deviceLedgerUpdateDeviceLabel (table : List LedgerRecord)
    (provider organization : Option (List Char)) (deviceName : List Char)
    (expectedLabel label : Option DeviceCustomLabel) :
    Except PyErr (List LedgerRecord) :=
  let conds : List (LedgerRecord → Bool) :=
    (match provider with
     | some p => [fun r => r.jwtGroup = some p]
     | none => []) ++
    (match organization with
     | some o => [fun r => r.org = some o]
     | none => []) ++
    (match expectedLabel with
     | some l => [fun r => r.customLabel = some l.toValue]
     | none => [])
  let upd : List LedgerRecord → List LedgerRecord :=
    fun t => t.map (fun r =>
      if r.serialNumber = some deviceName then ledgerApplyLabel label r else r)
  if conds.isEmpty then
    .ok (if (table.find? (·.serialNumber = some deviceName)).isSome then
      upd table
    else
      table ++ [ledgerApplyLabel label { serialNumber := some deviceName }])
  else
    match table.find? (·.serialNumber = some deviceName) with
    | none => .error .ledgerConditionFailed
    | some r =>
      if conds.all (fun c => c r) then .ok (upd table)
      else .error .ledgerConditionFailed

/-- Modelled from the spec: `fleet_index.update_device_active_state` is called
by `repo.update_device_label` but is missing from the source tree (only its
caller is present).  Per the spec, setting `active=False` adds the device to
the fixed deactivated group and `active=True` removes it, and the call fails
with the distinguishable `DeviceNotFound` error when the fleet index has no
record of the device (the device never connected).  The fleet index is
modelled as the list of names it knows plus the deactivated-group membership
list. -/
structure FleetIndexState where
  knownNames : List (List Char)
  deactivatedGroup : List (List Char)
deriving DecidableEq

/-- Modelled from the spec: the group-membership toggle of
`fleet_index.update_device_active_state`. -/
def fleetUpdateDeviceActiveState (st : FleetIndexState) (deviceName : List Char)
    (active : Bool) : Except PyErr FleetIndexState :=
  if deviceName ∈ st.knownNames then
    if active then
      .ok { st with deactivatedGroup := st.deactivatedGroup.filter (· ≠ deviceName) }
    else
      .ok { st with deactivatedGroup := deviceName :: st.deactivatedGroup }
  else
    .error (.fleetDeviceNotFound "device not found in fleet index".data)

/-- The old-label extraction of `repo.update_device_label`:
`DeviceCustomLabel.from_value(old_label_value) if old_label_value else None`
(a falsy raw value parses to `None`, and so does a value outside the enum). -/
def parseOldLabel : Option (List Char) → Option DeviceCustomLabel
  | none => none
  | some [] => none
  | some (c :: cs) => DeviceCustomLabel.from_value (c :: cs)

/-- `repo.update_device_label`, with the fleet-index toggle abstracted as an
oracle (`fleetToggle`), so the compensation path can be examined under any
toggle failure.  Returns the call outcome together with the final ledger
table (errors do not roll the state back by themselves).  Mirrors the source:
the not-found check compares the `find_device` result against Python `None`
(which the empty dictionary is not); the ledger write is conditioned on the
parsed old label; transitions not involving `deactivated` stop after the
ledger write; on a toggle failure a compensating conditional write restores
the old label, after which a fleet `DeviceNotFoundError` surfaces as
`InvalidArgument("cannot deactivate unprovisioned device")` and any other
toggle failure is re-raised; a failing compensating write is logged and the
inner exception propagates. -/
def repoUpdateDeviceLabel (fleetToggle : List Char → Bool → Except PyErr Unit)
    (table : List LedgerRecord) (deviceName : List Char)
    (label : Option DeviceCustomLabel) :
    Except PyErr Unit × List LedgerRecord :=
  match deviceLedgerFindDevice table none none deviceName with
  | none => (.error (appNotFound "no such device".data), table)
  | some item =>
    let oldLabel := parseOldLabel item.customLabel
    match deviceLedgerUpdateDeviceLabel table none none deviceName oldLabel label with
    | .error e => (.error e, table)
    | .ok table2 =>
      if label ≠ some .deactivated ∧ oldLabel ≠ some .deactivated then
        (.ok (), table2)
      else
        match fleetToggle deviceName (label ≠ some .deactivated) with
        | .ok _ => (.ok (), table2)
        | .error e =>
          match deviceLedgerUpdateDeviceLabel table2 none none deviceName label oldLabel with
          | .error e2 => (.error e2, table2)
          | .ok table3 =>
            match e with
            | .fleetDeviceNotFound _ =>
              (.error (appInvalidArgument "cannot deactivate unprovisioned device".data),
                table3)
            | _ => (.error e, table3)

/-- The dictionary comprehension of `repo._merge_entities_to_models`
(`\x7bf["thingName"]: f for f in fleet_items\x7d.get(name)`): for duplicate
names the last fleet item wins. -/
def fleetLookup (fleetItems : List FleetEntity) (name : List Char) :
    Option FleetEntity :=
  (fleetItems.filter (·.thingName = name)).getLast?

/-- `repo._merge_entities_to_models`: one device per ledger record, paired
with the fleet record of the same name when one exists;
`ledger_entity_unprovisioned` is set exactly when there is no fleet match.
`none` models the `KeyError` on a ledger record without `serialNumber` or a
builder exception. -/
def mergeEntitiesToModels (isoParse : List Char → ℚ)
    (fleetItems : List FleetEntity) (ledgerItems : List LedgerRecord) :
    Option (List Device) :=
  ledgerItems.mapM (fun ledgerEntity => do
    let serial ← ledgerEntity.serialNumber
    let fleetEntity := fleetLookup fleetItems serial
    deviceEntityToModel isoParse fleetEntity (some ledgerEntity) none none
      fleetEntity.isNone)

/-- `repo.export_devices`: canonicalize the group names, fetch the fleet items
with a single unpaged fleet-index search call (whose continuation token the
source discards) and all ledger items with an unpaged ledger scan, then merge.
The fleet store is external, so its response is a parameter. -/
def exportDevices (isoParse : List Char → ℚ) (fleetItems : List FleetEntity)
    (table : List LedgerRecord) (provider organization : Option (List Char)) :
    Option (List Device) :=
  let provider := maybeCanonicalizeGroupName provider
  let organization := maybeCanonicalizeGroupName organization
  let ledgerItems :=
    (deviceLedgerListDevices table provider organization none none none none false).2
  mergeEntitiesToModels isoParse fleetItems ledgerItems

/-- The query record of one fleet-index `list_devices` call made by the
aggregation engine.  The `activeOnly` flag is modelled from the spec:
`fleet_index.list_devices` in the source tree lacks the `active_only`
parameter its caller passes; per the spec, `activeOnly=true` excludes devices
in the fixed deactivated membership group. -/
structure FleetQuery where
  provider : Option (List Char)
  organization : Option (List Char)
  nameLike : Option (List Char)
  page : Option (List Char)
  pageSize : Option Nat
  activeOnly : Bool
deriving DecidableEq

/-- `fleet_index.list_devices`: a given `name_like` is validated against the
allow-list regex and anything else is rejected with `InvalidArgument` before
any store access; provider/organization quotes are escaped into the opaque
query string (an escape, not a raise).  The external `search_index` call on
the constructed query is the oracle `searchIndex`, receiving the semantic
content of the query (including the spec-modelled `activeOnly` restriction)
together with the pass-through page token and page size, and returning
`(nextToken, things)`. -/
def fleetIndexListDevices
    (searchIndex : FleetQuery → Option (List Char) × List FleetEntity)
    (q : FleetQuery) : Except PyErr (Option (List Char) × List FleetEntity) :=
  match q.nameLike with
  | some nameLike =>
    if ¬deviceNameFullmatch nameLike then
      .error (appInvalidArgument "name must match the regex: [a-zA-Z0-9:_-]+".data)
    else
      .ok (searchIndex q)
  | none => .ok (searchIndex q)

/-- `fleet_index.find_device`: the device name is validated against the
allow-list regex and a provider or organization containing a double quote is
rejected with `InvalidArgument`, both before any store access; the external
single-result `search_index` call (`things[0]` or `None`) is the oracle
`searchFind`. -/
def fleetIndexFindDevice (searchFind : Option FleetEntity)
    (provider organization : Option (List Char)) (deviceName : List Char) :
    Except PyErr (Option FleetEntity) :=
  if ¬deviceNameFullmatch deviceName then
    .error (appInvalidArgument "name must match the regex: [a-zA-Z0-9:_-]+".data)
  else if optionContainsQuote provider ∨ optionContainsQuote organization then
    .error (appInvalidArgument
      "provider and organization must not contain double quotes".data)
  else
    .ok searchFind

/-- `repo._search_result_to_model`: ledger items first, then fleet items, all
through the model builder; ledger items carry the
`ledger_items_unprovisioned` flag, fleet items are built fleet-only (with the
default `ledger_entity_unprovisioned=True` of the builder). -/
def searchResultToModel (isoParse : List Char → ℚ)
    (ledgerItems : List LedgerRecord) (fleetItems : List FleetEntity)
    (ledgerItemsUnprovisioned : Bool) : Option (List Device) := do
  let ledgerModels ← ledgerItems.mapM (fun entity =>
    deviceEntityToModel isoParse none (some entity) none none ledgerItemsUnprovisioned)
  let fleetModels ← fleetItems.mapM (fun entity =>
    deviceEntityToModel isoParse (some entity) none none none true)
  some (ledgerModels ++ fleetModels)

/-- The page decode of the inner ledger cursor inside
`device_ledger.list_devices` (`_decode_page`): a falsy page decodes to `None`
without touching the codec; otherwise the external base64/JSON codec
(`decodeKey`) is applied. -/
def decodeLedgerInnerPage (decodeKey : List Char → Except PyErr (List LedgerRecord)) :
    Option (List Char) → Except PyErr (Option (List LedgerRecord))
  | none => .ok none
  | some [] => .ok none
  | some (c :: cs) => (decodeKey (c :: cs)).map some

/-- `repo.list_devices`: canonicalize the group names, split the composite
cursor, run the ledger phase when a label filter is given, a ledger cursor is
resumed, or this is a first page; wrap a ledger continuation as an `l` cursor
and, when no label filter is given and either a fleet cursor is resumed or
the page is still partial, run the fleet phase with the remaining page-size
budget and `active_only=True`, wrapping its continuation as an `f` cursor.
The fleet phase goes through `fleetIndexListDevices` (whose `name_like`
validation can raise) over the external search oracle `fleet`; the returned
list records every fleet adapter invocation made.  `encodeKey`/`decodeKey`
are the external serialization of ledger scan keys. -/
def repoListDevices (fleet : FleetQuery → Option (List Char) × List FleetEntity)
    (decodeKey : List Char → Except PyErr (List LedgerRecord))
    (encodeKey : List LedgerRecord → List Char) (isoParse : List Char → ℚ)
    (table : List LedgerRecord) (provider organization nameLike : Option (List Char))
    (label : Option DeviceCustomLabel) (page : Option (List Char))
    (pageSize : Option Nat) :
    Except PyErr ((Option (List Char) × List Device) × List FleetQuery) := do
  let provider := maybeCanonicalizeGroupName provider
  let organization := maybeCanonicalizeGroupName organization
  let (ledgerPage, fleetPage) ← loadPage page
  let queryLedgerOnly := label.isSome
  let isFirstPage := ¬pyTruthy ledgerPage ∧ ¬pyTruthy fleetPage
  let (nextPage1, ledgerItems) ←
    if queryLedgerOnly ∨ pyTruthy ledgerPage ∨ isFirstPage then do
      let decodedPage ← decodeLedgerInnerPage decodeKey ledgerPage
      let (rawNext, items) :=
        deviceLedgerListDevices table provider organization nameLike label
          decodedPage pageSize (!queryLedgerOnly)
      pure (rawNext.map (fun k => dumpPage .ledger (encodeKey k)), items)
    else
      pure ((none : Option (List Char)), ([] : List LedgerRecord))
  let partialPage := nextPage1 = none ∧
    (pageSize = none ∨ ledgerItems.length < pageSize.getD 0)
  let (nextPage2, fleetItems, invocations) ←
    if ¬queryLedgerOnly ∧ (pyTruthy fleetPage ∨ partialPage) then do
      let contPageSize := pageSize.map (· - ledgerItems.length)
      let q : FleetQuery :=
        { provider := provider
          organization := organization
          nameLike := nameLike
          page := fleetPage
          pageSize := contPageSize
          activeOnly := true }
      let (tok, items) ← fleetIndexListDevices fleet q
      pure (match tok with
        | some (c :: cs) => some (dumpPage .fleet (c :: cs))
        | some [] => some ([] : List Char)
        | none => nextPage1,
        items, [q])
    else
      pure (nextPage1, ([] : List FleetEntity), ([] : List FleetQuery))
  match searchResultToModel isoParse ledgerItems fleetItems (!queryLedgerOnly) with
  | some items => .ok ((nextPage2, items), invocations)
  | none => .error (.otherError "model builder exception".data)

/-- A schema-registry DynamoDB item, with the attributes
`schema_registry.get_schema_by_hash` reads.  `title` and `version` are
indexed directly; `id` and `jwtGroup` are read with `.get`. -/
structure SchemaItem where
  id : Option (List Char) := none
  title : List Char
  version : Int
  jwtGroup : Option (List Char) := none
  schemaHash : List Char
deriving DecidableEq

/-- `schema_registry.get_schema_by_hash`: hash the concatenation of the schema
text and the provider with the external `md5` digest, query the
`schemaHash-index` secondary index (modelled as a filter of the table in
index order), take the first item, and return the spec dictionary only when
the owning provider of the item equals the given provider. -/
def getSchemaByHash (md5 : List Char → List Char) (schemasTable : List SchemaItem)
    (provider : List Char) (jsonSchema : List Char) : Option SchemaEntityDict :=
  let schemaHash := md5 (jsonSchema ++ provider)
  let items := schemasTable.filter (·.schemaHash = schemaHash)
  match items.head? with
  | some item =>
    if item.jwtGroup = some provider then
      some
        { id := item.id
          title := item.title
          version := item.version
          jwtGroup := item.jwtGroup
          jsonSchema := jsonSchema }
    else
      none
  | none => none

/-- The suffix after the first occurrence of `sep`, if any. -/
def suffixAfterFirst (sep : List Char) : List Char → Option (List Char)
  | [] => none
  | c :: rest =>
    if sep.isPrefixOf (c :: rest) then some ((c :: rest).drop sep.length)
    else suffixAfterFirst sep rest

/-- Python `resource.split("topic/", maxsplit=1)[-1]`: everything after the
first occurrence of the separator, or the whole string when it does not
occur. -/
def splitOnceAfterGetLast (sep : List Char) (s : List Char) : List Char :=
  (suffixAfterFirst sep s).getD s

/-- `repo._get_streaming_topic`: no topic for an unprovisioned record; for a
provisioned one, find the `iot:Publish` statement of the policy document and
take the part of its resource after `topic/`; a missing or falsy resource is
the inconsistent-state internal error. -/
def getStreamingTopic (r : LedgerRecord) : Except PyErr (Option (List Char)) :=
  if r.provStatus = none then
    .ok none
  else
    let statements := (r.policyDoc.map (·.statement)).getD []
    let resource := (statements.find? (·.action = "iot:Publish".data)).map (·.resource)
    if pyTruthy resource then
      .ok (some (splitOnceAfterGetLast "topic/".data (resource.getD [])))
    else
      .error (appInternalError "inconsistent state when fetching stream preview".data)

/-- The body of the `try` block of `repo.get_device`: derive the streaming
topic and fetch the preview when a topic exists.  The surrounding handler
(`getDevicePreviewStep`) re-raises an `AppError` whose status is not the
internal error code, downgrades an internal-error `AppError` to the
placeholder preview, and lets any non-`AppError` exception propagate
uncaught. -/
def previewRawStep (previewFetch : List Char → Except PyErr (Option (List Char × Option ℚ)))
    (r : LedgerRecord) : Except PyErr (Option (List Char × Option ℚ)) := do
  let topic ← getStreamingTopic r
  match topic with
  | some t => previewFetch t
  | none => pure none

/-- The `try`/`except AppError` wrapper around `previewRawStep` in
`repo.get_device`. -/
def getDevicePreviewStep (previewFetch : List Char → Except PyErr (Option (List Char × Option ℚ)))
    (r : LedgerRecord) : Except PyErr (Option (List Char × Option ℚ)) :=
  match previewRawStep previewFetch r with
  | .ok p => .ok p
  | .error (.appError code msg) =>
    if code ≠ internalErrorCode then .error (.appError code msg)
    else .ok (some ("<error fetching preview>".data, none))
  | .error e => .error e

/-- `repo.get_device`: canonicalize group names, validate the device name
against the allow-list regex, fetch the ledger record (a falsy result is
not-found), optionally return the brief representation, look up the schema
spec by hash when the snake-case `json_schema` attribute is present (the
direct `jwtGroup` index raising on an absent value), take the fleet record
through `fleetIndexFindDevice` (whose name and quote validation can raise,
before the preview step) over the external search result `fleetFind`, run
the guarded preview step, and build the device.  A builder exception
surfaces as `otherError`. -/
def repoGetDevice (fleetFind : Option FleetEntity)
    (previewFetch : List Char → Except PyErr (Option (List Char × Option ℚ)))
    (md5 : List Char → List Char) (schemasTable : List SchemaItem)
    (isoParse : List Char → ℚ) (table : List LedgerRecord)
    (provider organization : Option (List Char)) (deviceName : List Char)
    (briefRepr : Bool) : Except PyErr Device := do
  let provider := maybeCanonicalizeGroupName provider
  let organization := maybeCanonicalizeGroupName organization
  if ¬deviceNameFullmatch deviceName then
    .error (appInvalidArgument "name must match the regex: [a-zA-Z0-9:_-]+".data)
  else
    match deviceLedgerFindDevice table provider organization deviceName with
    | none =>
      .error (appNotFound ("device with name ".data ++ deviceName ++ " is not registered".data))
    | some ledgerDevice =>
      if ledgerDevice.isFalsy then
        .error (appNotFound ("device with name ".data ++ deviceName ++ " is not registered".data))
      else if briefRepr then
        match deviceEntityToModel isoParse none (some ledgerDevice) none none true with
        | some d => .ok d
        | none => .error (.otherError "model builder exception".data)
      else do
        let schemaEntity ←
          match ledgerDevice.json_schema with
          | some jsonSchema =>
            match ledgerDevice.jwtGroup with
            | some g => pure (getSchemaByHash md5 schemasTable g jsonSchema)
            | none => .error (.otherError "jwtGroup unavailable".data)
          | none => pure none
        let fleetDevice ← fleetIndexFindDevice fleetFind provider organization deviceName
        let preview ← getDevicePreviewStep previewFetch ledgerDevice
        match deviceEntityToModel isoParse fleetDevice (some ledgerDevice) schemaEntity
            preview true with
        | some d => .ok d
        | none => .error (.otherError "model builder exception".data)

/-- The error exported by `repo.update_device_label` when the fleet toggle
fails and the compensating ledger write succeeds: a fleet `DeviceNotFoundError`
surfaces as `InvalidArgument("cannot deactivate unprovisioned device")`; any
other toggle failure is re-raised unchanged. -/
def toggleErrorToAppError (e : PyErr) : PyErr :=
  match e with
  | .fleetDeviceNotFound _ =>
    appInvalidArgument "cannot deactivate unprovisioned device".data
  | _ => e

/-- The spec-modelled fleet index as the toggle oracle `repo.update_device_label`
calls (discarding the updated group state, which the repo does not read). -/
def fleetToggleOf (st : FleetIndexState) : List Char → Bool → Except PyErr Unit :=
  fun deviceName active =>
    (fleetUpdateDeviceActiveState st deviceName active).map (fun _ => ())

/-- Well-formedness of a ledger record as the model builder consumes it: the
attributes the builder indexes directly (`serialNumber`, `org`, `proj`) are
present.  On such records `device_entity_to_model` cannot raise. -/
def ledgerRecordWF (r : LedgerRecord) : Bool :=
  r.serialNumber.isSome && r.org.isSome && r.proj.isSome

/-- Well-formedness of a fleet entity as the model builder consumes it: a
present disconnect reason is one of the known reason codes (otherwise the
direct description-table index raises `KeyError`). -/
def fleetEntityWF (f : FleetEntity) : Bool :=
  match f.connectivity with
  | some c =>
    match c.disconnectReason with
    | some reason => (disconnectReasonDescription reason).isSome
    | none => true
  | none => true

theorem DeviceCustomLabel.toValue_ne_nil (l : DeviceCustomLabel) : l.toValue ≠ [] := by
  cases l <;> simp [DeviceCustomLabel.toValue, String.data]

theorem DeviceCustomLabel.from_value_eq (v : List Char) (l : DeviceCustomLabel)
    (h : DeviceCustomLabel.from_value v = some l) : v = l.toValue := by
  unfold DeviceCustomLabel.from_value at h
  split at h
  · cases h; assumption
  · split at h
    · cases h; assumption
    · split at h
      · cases h; assumption
      · split at h
        · cases h; assumption
        · cases h

theorem parseOldLabel_eq (v : List Char) (l : DeviceCustomLabel)
    (h : DeviceCustomLabel.from_value v = some l) :
    parseOldLabel (some v) = some l := by
  cases v with
  | nil =>
    exfalso
    have := DeviceCustomLabel.from_value_eq [] l h
    exact DeviceCustomLabel.toValue_ne_nil l this.symm
  | cons c cs => simpa [parseOldLabel] using h

/-- Every item collected by the scan loop passes the scan filter, provided the
already-accumulated items do. -/
theorem scanTableLoop_pred_invariant (pred : LedgerRecord → Bool)
    (pageSize : Option Nat) :
    ∀ fuel rem acc resultSize, (∀ r ∈ acc, pred r = true) →
      ∀ r ∈ (scanTableLoop pred pageSize fuel rem acc resultSize).1, pred r = true := by
  intro fuel
  induction fuel with
  | zero =>
    intro rem acc rs h r hr
    exact h r (by simpa [scanTableLoop] using hr)
  | succ fuel ih =>
    intro rem acc rs h r hr
    simp only [scanTableLoop] at hr
    have hacc2 : ∀ (cnt : Nat) (x : LedgerRecord),
        x ∈ acc ++ (rem.take cnt).filter pred → pred x = true := by
      intro cnt x hx
      rcases List.mem_append.1 hx with hx | hx
      · exact h x hx
      · exact (List.mem_filter.1 hx).2
    split at hr
    · exact hacc2 _ r hr
    · split at hr
      · exact ih _ _ _ (fun x hx => hacc2 _ x hx) r hr
      · exact hacc2 _ r hr

/-- The scan filter with no label filter rejects any item whose stored label
is the deactivated value. -/
theorem ledgerScanPred_no_deactivated (provider organization nameLike : Option (List Char))
    (unprovisionedOnly : Bool) (r : LedgerRecord)
    (h : ledgerScanPred provider organization nameLike none unprovisionedOnly r = true) :
    r.customLabel ≠ some DeviceCustomLabel.deactivated.toValue := by
  intro hlab
  unfold ledgerScanPred at h
  simp only [Bool.and_eq_true] at h
  have h4 := h.1.2
  rw [hlab] at h4
  simp at h4

/-- C10: for every ledger listing query without a label filter (any
provider/organization/name filters, any page, page size and
unprovisioned-only setting — covering the unprovisioned-only phase of the
aggregated listing and the export fetch), the scan filter requires the
stored label to differ from `DEACTIVATED`, so no returned ledger item
carries the deactivated label. -/
theorem deviceLedgerListDevices_excludes_deactivated
    (table : List LedgerRecord) (provider organization nameLike : Option (List Char))
    (page : Option (List LedgerRecord)) (pageSize : Option Nat)
    (unprovisionedOnly : Bool) (r : LedgerRecord)
    (hmem : r ∈ (deviceLedgerListDevices table provider organization nameLike none
      page pageSize unprovisionedOnly).2) :
    r.customLabel ≠ some DeviceCustomLabel.deactivated.toValue := by
  unfold deviceLedgerListDevices at hmem
  simp only at hmem
  have hp := scanTableLoop_pred_invariant
    (ledgerScanPred provider organization nameLike none unprovisionedOnly)
    pageSize ((page.getD table).length + 1) (page.getD table) [] 0
    (by intro x hx; cases hx) r hmem
  exact ledgerScanPred_no_deactivated provider organization nameLike unprovisionedOnly r hp

theorem deviceLedgerListDevices_excludes_deactivated_witness :
    ({ serialNumber := some "dev-1".data, org := some "org-a".data,
       customLabel := some "DEPLOYED".data : LedgerRecord }).customLabel ≠
      some DeviceCustomLabel.deactivated.toValue :=
  deviceLedgerListDevices_excludes_deactivated
    [{ serialNumber := some "dev-1".data, org := some "org-a".data,
       customLabel := some "DEPLOYED".data }]
    none none none none (some 5) true
    { serialNumber := some "dev-1".data, org := some "org-a".data,
      customLabel := some "DEPLOYED".data }
    (by decide)

/-- C6: decoding an encoded composite cursor recovers the same source tag and
inner cursor, with the component of the other source null. -/
theorem loadPage_dumpPage_roundtrip (tag : PageTag) (cursor : List Char) :
    loadPage (some (dumpPage tag cursor)) =
      .ok (match tag with
        | .ledger => (some cursor, none)
        | .fleet => (none, some cursor)) := by
  cases tag <;> rfl

/-- C4 fails as stated: a listing call can return more items than the
requested page size.  With page size 2 and a table whose first evaluated
window contains one filter-rejected row, the anti-starvation loop performs a
second full fetch and the call returns 3 items. -/
theorem deviceLedgerListDevices_page_size_counterexample :
    (deviceLedgerListDevices
      [{ serialNumber := some "d1".data, customLabel := some "DEPLOYED".data },
       { serialNumber := some "d2".data, customLabel := some "DEACTIVATED".data },
       { serialNumber := some "d3".data, customLabel := some "DEPLOYED".data },
       { serialNumber := some "d4".data, customLabel := some "DEPLOYED".data }]
      none none none none none (some 2) true).2.length = 3 ∧
    ¬((deviceLedgerListDevices
      [{ serialNumber := some "d1".data, customLabel := some "DEPLOYED".data },
       { serialNumber := some "d2".data, customLabel := some "DEACTIVATED".data },
       { serialNumber := some "d3".data, customLabel := some "DEPLOYED".data },
       { serialNumber := some "d4".data, customLabel := some "DEPLOYED".data }]
      none none none none none (some 2) true).2.length ≤ 2) := by
  decide

/-- Each window the scan loop evaluates is capped at the page size, and the
loop only continues while the (over-counted) result size is below the page
size, so the collected items never exceed `acc + n` in one step and `2n - 1`
overall. -/
theorem scanTableLoop_length_bound (pred : LedgerRecord → Bool) (n : Nat)
    (hn : 1 ≤ n) :
    ∀ fuel rem acc resultSize,
      (scanTableLoop pred (some n) fuel rem acc resultSize).1.length ≤
        max (acc.length + n) (2 * n - 1) := by
  intro fuel
  induction fuel with
  | zero =>
    intro rem acc rs
    simp only [scanTableLoop]
    exact le_max_of_le_left (Nat.le_add_right _ _)
  | succ fuel ih =>
    intro rem acc rs
    have hlimit : scanLimit (some n) = some n := by
      cases n with
      | zero => exact absurd hn (by decide)
      | succ m => simp [scanLimit]
    simp only [scanTableLoop, hlimit]
    have hbatch : ((rem.take (min n rem.length)).filter pred).length ≤ n := by
      calc ((rem.take (min n rem.length)).filter pred).length
          ≤ (rem.take (min n rem.length)).length := List.length_filter_le _ _
        _ ≤ n := by simp [List.length_take]
    have hstep : (acc ++ (rem.take (min n rem.length)).filter pred).length ≤
        max (acc.length + n) (2 * n - 1) := by
      rw [List.length_append]
      exact le_max_of_le_left (Nat.add_le_add_left hbatch _)
    split
    · exact hstep
    · split
      · rename_i hne hcond
        have hcond' : rs + (acc ++ (rem.take (min n rem.length)).filter pred).length < n := by
          rcases hcond with h | h
          · cases h
          · simpa using h
        have hacc2 : (acc ++ (rem.take (min n rem.length)).filter pred).length ≤ n - 1 := by
          omega
        refine le_max_of_le_right ?_
        refine le_trans (ih (rem.drop (min n rem.length))
          (acc ++ (rem.take (min n rem.length)).filter pred)
          (rs + (acc ++ (rem.take (min n rem.length)).filter pred).length)) ?_
        have h2n : (acc ++ (rem.take (min n rem.length)).filter pred).length + n ≤
            2 * n - 1 := by
          omega
        exact max_le h2n (Nat.le_refl _)
      · exact hstep

/-- C4 amended: the fetch loop accumulates only while the accumulated count is
below the requested page size `n` and stops once at least `n` items are
collected, but it does not truncate, so a single call returns at most
`2n - 1` items (each underlying fetch is capped at `n`), not at most `n`. -/
theorem deviceLedgerListDevices_page_size_bound
    (table : List LedgerRecord) (provider organization nameLike : Option (List Char))
    (label : Option DeviceCustomLabel) (page : Option (List LedgerRecord))
    (unprovisionedOnly : Bool) (n : Nat) (hn : 1 ≤ n) :
    (deviceLedgerListDevices table provider organization nameLike label page
      (some n) unprovisionedOnly).2.length ≤ 2 * n - 1 := by
  unfold deviceLedgerListDevices
  simp only
  have hb := scanTableLoop_length_bound
    (ledgerScanPred provider organization nameLike label unprovisionedOnly) n hn
    ((page.getD table).length + 1) (page.getD table) [] 0
  have hmax : max (([] : List LedgerRecord).length + n) (2 * n - 1) = 2 * n - 1 := by
    simp only [List.length_nil, Nat.zero_add]
    exact Nat.max_eq_right (by omega)
  rw [hmax] at hb
  exact hb

theorem deviceLedgerListDevices_page_size_bound_witness :
    (deviceLedgerListDevices
      [{ serialNumber := some "d1".data, customLabel := some "DEPLOYED".data }]
      none none none none none (some 2) true).2.length ≤ 2 * 2 - 1 :=
  deviceLedgerListDevices_page_size_bound
    [{ serialNumber := some "d1".data, customLabel := some "DEPLOYED".data }]
    none none none none none true 2 (by decide)

/-- C9: the schema-registry hash lookup hashes the concatenation of the schema
text and the provider; when the first item found under that hash belongs to a
different provider the result is null, and any returned spec carries exactly
the requesting provider, so a schema of another provider is never returned. -/
theorem getSchemaByHash_provider_isolation
    (md5 : List Char → List Char) (schemasTable : List SchemaItem)
    (provider jsonSchema : List Char) (item : SchemaItem)
    (hitem : (schemasTable.filter
      (·.schemaHash = md5 (jsonSchema ++ provider))).head? = some item) :
    (item.jwtGroup ≠ some provider →
      getSchemaByHash md5 schemasTable provider jsonSchema = none) ∧
    (∀ spec, getSchemaByHash md5 schemasTable provider jsonSchema = some spec →
      spec.jwtGroup = some provider) := by
  simp only [getSchemaByHash]
  rw [hitem]
  constructor
  · intro hne
    simp [hne]
  · intro spec hspec
    have hspec' : (if item.jwtGroup = some provider then
        some ({ id := item.id, title := item.title, version := item.version,
                jwtGroup := item.jwtGroup, jsonSchema := jsonSchema } : SchemaEntityDict)
      else none) = some spec := hspec
    by_cases hg : item.jwtGroup = some provider
    · rw [if_pos hg] at hspec'
      cases hspec'
      simpa using hg
    · rw [if_neg hg] at hspec'
      cases hspec'

theorem getSchemaByHash_provider_isolation_witness :
    getSchemaByHash (fun _ => "h0".data)
      [{ title := "t".data, version := 1, jwtGroup := some "other-provider".data,
         schemaHash := "h0".data }]
      "provider-a".data "schema-text".data = none :=
  (getSchemaByHash_provider_isolation (fun _ => "h0".data)
    [{ title := "t".data, version := 1, jwtGroup := some "other-provider".data,
       schemaHash := "h0".data }]
    "provider-a".data "schema-text".data
    { title := "t".data, version := 1, jwtGroup := some "other-provider".data,
      schemaHash := "h0".data }
    (by decide)).1 (by decide)

/-- C3 is right about the intended behavior but the code violates it: for a
device name with no ledger record, `find_device` returns the empty dictionary
(not `None`), the `is None` check in `update_device_label` therefore does not
fire, no `NotFound` is raised, and the unconditioned ledger write upserts a
fresh record carrying only the new label. -/
theorem repoUpdateDeviceLabel_missing_device_upserts :
    repoUpdateDeviceLabel (fun _ _ => .ok ()) [] "ghost".data
      (some .deployed) =
    (.ok (), [{ serialNumber := some "ghost".data,
                customLabel := some "DEPLOYED".data }]) := by
  decide

theorem find?_serial_map_update (t : List LedgerRecord) (deviceName : List Char)
    (f : LedgerRecord → LedgerRecord)
    (hf : ∀ r, (f r).serialNumber = r.serialNumber) :
    (t.map (fun r => if r.serialNumber = some deviceName then f r else r)).find?
        (·.serialNumber = some deviceName) =
      (t.find? (·.serialNumber = some deviceName)).map f := by
  induction t with
  | nil => rfl
  | cons head tail ih =>
    by_cases hh : head.serialNumber = some deviceName
    · simp only [List.map_cons, if_pos hh]
      rw [List.find?_cons_of_pos _ (by simp [hf, hh]),
        List.find?_cons_of_pos _ (by simpa using hh)]
      rfl
    · simp only [List.map_cons, if_neg hh]
      rw [List.find?_cons_of_neg _ (by simpa using hh),
        List.find?_cons_of_neg _ (by simpa using hh), ih]

/-- `find_device` on the unfiltered administrative path: the stored record is
returned (up to the schema-placeholder normalization, which does not touch
the label or the serial number). -/
theorem findDevice_admin (table : List LedgerRecord) (deviceName : List Char)
    (r : LedgerRecord)
    (hfind : table.find? (·.serialNumber = some deviceName) = some r) :
    deviceLedgerFindDevice table none none deviceName =
      some (if r.jsonSchema = some "\x7b\x7d".data then { r with jsonSchema := none } else r) := by
  unfold deviceLedgerFindDevice
  rw [hfind]
  simp [pyTruthy]

/-- The conditional ledger label write on the unfiltered path succeeds and maps
the keyed record through `ledgerApplyLabel` whenever the expected-label
condition matches the stored record. -/
theorem ledgerUpdate_admin_ok (table : List LedgerRecord) (deviceName : List Char)
    (expected label : Option DeviceCustomLabel) (r : LedgerRecord)
    (hfind : table.find? (·.serialNumber = some deviceName) = some r)
    (hcond : ∀ l, expected = some l → r.customLabel = some l.toValue) :
    deviceLedgerUpdateDeviceLabel table none none deviceName expected label =
      .ok (table.map (fun x =>
        if x.serialNumber = some deviceName then ledgerApplyLabel label x else x)) := by
  cases expected with
  | none => simp [deviceLedgerUpdateDeviceLabel, hfind]
  | some l =>
    simp [deviceLedgerUpdateDeviceLabel, hfind, hcond l rfl]

/-- The update saga after a failing fleet toggle, on a pre-call record whose
stored label is a faithful enum value or absent: the ledger write happened,
the compensating conditional write succeeds and restores the pre-call label,
and the call surfaces the toggle failure (`InvalidArgument` for the fleet
not-found case, the failure itself otherwise). -/
theorem repoUpdate_toggle_error_aux
    (fleetToggle : List Char → Bool → Except PyErr Unit)
    (table : List LedgerRecord) (deviceName : List Char) (r : LedgerRecord)
    (label : Option DeviceCustomLabel) (e : PyErr)
    (hfind : table.find? (·.serialNumber = some deviceName) = some r)
    (hclean : parseOldLabel r.customLabel = none → r.customLabel = none)
    (hdeact : label = some .deactivated ∨ parseOldLabel r.customLabel = some .deactivated)
    (htoggle : fleetToggle deviceName (decide (label ≠ some .deactivated)) = .error e) :
    (repoUpdateDeviceLabel fleetToggle table deviceName label).1 =
      .error (toggleErrorToAppError e) ∧
    ∃ r2, (repoUpdateDeviceLabel fleetToggle table deviceName label).2.find?
        (·.serialNumber = some deviceName) = some r2 ∧
      r2.customLabel = r.customLabel := by
  have hfd := findDevice_admin table deviceName r hfind
  have hitemLabel :
      (if r.jsonSchema = some "\x7b\x7d".data then { r with jsonSchema := none } else r).customLabel
        = r.customLabel := by
    split <;> rfl
  have hparse : ∀ l, parseOldLabel r.customLabel = some l → r.customLabel = some l.toValue := by
    intro l hl
    cases hv : r.customLabel with
    | none => rw [hv] at hl; cases hl
    | some v =>
      rw [hv] at hl
      cases v with
      | nil => cases hl
      | cons c cs =>
        have := DeviceCustomLabel.from_value_eq (c :: cs) l (by simpa [parseOldLabel] using hl)
        rw [← this]
  have hstep3 := ledgerUpdate_admin_ok table deviceName (parseOldLabel r.customLabel) label r
    hfind hparse
  have hfind2 : (table.map (fun x =>
      if x.serialNumber = some deviceName then ledgerApplyLabel label x else x)).find?
      (·.serialNumber = some deviceName) = some (ledgerApplyLabel label r) := by
    rw [find?_serial_map_update table deviceName (ledgerApplyLabel label) (fun _ => rfl), hfind]
    rfl
  have hcomp := ledgerUpdate_admin_ok
    (table.map (fun x =>
      if x.serialNumber = some deviceName then ledgerApplyLabel label x else x))
    deviceName label (parseOldLabel r.customLabel) (ledgerApplyLabel label r)
    hfind2
    (by
      intro l hl
      cases hl
      rfl)
  have hnotboth : ¬(label ≠ some DeviceCustomLabel.deactivated ∧
      parseOldLabel r.customLabel ≠ some DeviceCustomLabel.deactivated) := by
    rcases hdeact with h | h
    · intro hc; exact hc.1 h
    · intro hc; exact hc.2 h
  have hfinal : (repoUpdateDeviceLabel fleetToggle table deviceName label) =
      (.error (toggleErrorToAppError e),
       (table.map (fun x =>
          if x.serialNumber = some deviceName then ledgerApplyLabel label x else x)).map
        (fun x => if x.serialNumber = some deviceName
          then ledgerApplyLabel (parseOldLabel r.customLabel) x else x)) := by
    simp only [repoUpdateDeviceLabel, hfd, hitemLabel, hstep3, htoggle, hcomp]
    rw [if_neg hnotboth]
    rcases e with e1 | e2 | e3 | e4 <;> rfl
  rw [hfinal]
  refine ⟨rfl, ledgerApplyLabel (parseOldLabel r.customLabel) (ledgerApplyLabel label r), ?_, ?_⟩
  · rw [find?_serial_map_update _ deviceName
      (ledgerApplyLabel (parseOldLabel r.customLabel)) (fun _ => rfl), hfind2]
    rfl
  · show (parseOldLabel r.customLabel).map DeviceCustomLabel.toValue = r.customLabel
    cases hp : parseOldLabel r.customLabel with
    | none => simpa using (hclean hp).symm
    | some l => simpa using (hparse l hp).symm

/-- C2: for a device whose ledger record exists with some label and which the
fleet index does not know (it never connected),
`updateLabel(deviceName, newLabel=deactivated)` leaves the ledger label equal
to its pre-call value and raises
`InvalidArgument("cannot deactivate unprovisioned device")`.  The fleet-index
toggle is the spec-modelled `update_device_active_state`. -/
theorem repoUpdateDeviceLabel_deactivate_unprovisioned
    (fleetSt : FleetIndexState) (table : List LedgerRecord) (deviceName : List Char)
    (r : LedgerRecord) (v : List Char) (l : DeviceCustomLabel)
    (hfind : table.find? (·.serialNumber = some deviceName) = some r)
    (hlabel : r.customLabel = some v)
    (hval : DeviceCustomLabel.from_value v = some l)
    (hnofleet : deviceName ∉ fleetSt.knownNames) :
    (repoUpdateDeviceLabel (fleetToggleOf fleetSt) table deviceName
        (some .deactivated)).1 =
      .error (appInvalidArgument "cannot deactivate unprovisioned device".data) ∧
    ∃ r2, (repoUpdateDeviceLabel (fleetToggleOf fleetSt) table deviceName
        (some .deactivated)).2.find? (·.serialNumber = some deviceName) = some r2 ∧
      r2.customLabel = some v := by
  have htoggle : fleetToggleOf fleetSt deviceName
      (decide ((some DeviceCustomLabel.deactivated : Option DeviceCustomLabel) ≠
        some DeviceCustomLabel.deactivated)) =
      .error (.fleetDeviceNotFound "device not found in fleet index".data) := by
    simp [fleetToggleOf, fleetUpdateDeviceActiveState, hnofleet, Except.map]
  have haux := repoUpdate_toggle_error_aux (fleetToggleOf fleetSt) table deviceName r
    (some .deactivated) (.fleetDeviceNotFound "device not found in fleet index".data)
    hfind
    (by
      intro h
      rw [hlabel, parseOldLabel_eq v l hval] at h
      cases h)
    (Or.inl rfl)
    htoggle
  refine ⟨?_, ?_⟩
  · rw [haux.1]
    rfl
  · obtain ⟨r2, h2, h3⟩ := haux.2
    exact ⟨r2, h2, by rw [h3, hlabel]⟩

theorem repoUpdateDeviceLabel_deactivate_unprovisioned_witness :
    (repoUpdateDeviceLabel
        (fleetToggleOf { knownNames := [], deactivatedGroup := [] })
        [{ serialNumber := some "dev-1".data, customLabel := some "DEPLOYED".data }]
        "dev-1".data (some .deactivated)).1 =
      .error (appInvalidArgument "cannot deactivate unprovisioned device".data) ∧
    ∃ r2, (repoUpdateDeviceLabel
        (fleetToggleOf { knownNames := [], deactivatedGroup := [] })
        [{ serialNumber := some "dev-1".data, customLabel := some "DEPLOYED".data }]
        "dev-1".data (some .deactivated)).2.find?
        (·.serialNumber = some "dev-1".data) = some r2 ∧
      r2.customLabel = some "DEPLOYED".data :=
  repoUpdateDeviceLabel_deactivate_unprovisioned
    { knownNames := [], deactivatedGroup := [] }
    [{ serialNumber := some "dev-1".data, customLabel := some "DEPLOYED".data }]
    "dev-1".data
    { serialNumber := some "dev-1".data, customLabel := some "DEPLOYED".data }
    "DEPLOYED".data .deployed
    (by decide) (by decide) (by decide) (by decide)

/-- C5: whenever the ledger write of the new label succeeds and the subsequent
fleet-index toggle fails (with any failure), the compensating conditional
ledger write succeeds and restores the pre-call label, and the call surfaces
the toggle failure (`InvalidArgument` for the fleet not-found case, the fleet
failure itself otherwise) — it never returns success. -/
theorem repoUpdateDeviceLabel_compensation_on_toggle_failure
    (fleetToggle : List Char → Bool → Except PyErr Unit)
    (table : List LedgerRecord) (deviceName : List Char) (r : LedgerRecord)
    (label : Option DeviceCustomLabel) (e : PyErr)
    (hfind : table.find? (·.serialNumber = some deviceName) = some r)
    (hclean : parseOldLabel r.customLabel = none → r.customLabel = none)
    (hdeact : label = some .deactivated ∨
      parseOldLabel r.customLabel = some .deactivated)
    (htoggle : fleetToggle deviceName
      (decide (label ≠ some DeviceCustomLabel.deactivated)) = .error e) :
    (repoUpdateDeviceLabel fleetToggle table deviceName label).1 =
      .error (toggleErrorToAppError e) ∧
    (∀ u, (repoUpdateDeviceLabel fleetToggle table deviceName label).1 ≠ .ok u) ∧
    ∃ r2, (repoUpdateDeviceLabel fleetToggle table deviceName label).2.find?
        (·.serialNumber = some deviceName) = some r2 ∧
      r2.customLabel = r.customLabel := by
  have haux := repoUpdate_toggle_error_aux fleetToggle table deviceName r label e
    hfind hclean hdeact htoggle
  refine ⟨haux.1, ?_, haux.2⟩
  intro u h
  rw [haux.1] at h
  cases h

theorem repoUpdateDeviceLabel_compensation_on_toggle_failure_witness :
    (repoUpdateDeviceLabel (fun _ _ => .error (.otherError "boom".data))
        [{ serialNumber := some "dev-2".data,
           customLabel := some "PERIODIC_BATCH".data }]
        "dev-2".data (some .deactivated)).1 =
      .error (toggleErrorToAppError (.otherError "boom".data)) ∧
    (∀ u, (repoUpdateDeviceLabel (fun _ _ => .error (.otherError "boom".data))
        [{ serialNumber := some "dev-2".data,
           customLabel := some "PERIODIC_BATCH".data }]
        "dev-2".data (some .deactivated)).1 ≠ .ok u) ∧
    ∃ r2, (repoUpdateDeviceLabel (fun _ _ => .error (.otherError "boom".data))
        [{ serialNumber := some "dev-2".data,
           customLabel := some "PERIODIC_BATCH".data }]
        "dev-2".data (some .deactivated)).2.find?
        (·.serialNumber = some "dev-2".data) = some r2 ∧
      r2.customLabel = some "PERIODIC_BATCH".data :=
  repoUpdateDeviceLabel_compensation_on_toggle_failure
    (fun _ _ => .error (.otherError "boom".data))
    [{ serialNumber := some "dev-2".data, customLabel := some "PERIODIC_BATCH".data }]
    "dev-2".data
    { serialNumber := some "dev-2".data, customLabel := some "PERIODIC_BATCH".data }
    (some .deactivated) (.otherError "boom".data)
    (by decide) (by decide) (Or.inl rfl) (by decide)

theorem connectivityToModel_isSome (fleetEntity : Option FleetEntity) (flag : Bool)
    (hf : ∀ f, fleetEntity = some f → fleetEntityWF f = true) :
    (connectivityToModel fleetEntity flag).isSome = true := by
  cases fleetEntity with
  | none => cases flag <;> simp [connectivityToModel]
  | some f =>
    have hwf := hf f rfl
    unfold fleetEntityWF at hwf
    cases hc : f.connectivity with
    | none =>
      cases flag <;> simp [connectivityToModel, hc]
    | some c =>
      simp only [hc] at hwf
      cases hd : c.disconnectReason with
      | none => simp [connectivityToModel, hc, hd]
      | some reason =>
        simp only [hd] at hwf
        obtain ⟨descr, hdd⟩ := Option.isSome_iff_exists.1 hwf
        simp [connectivityToModel, hc, hd, hdd]

theorem deviceInfoToModel_isSome (isoParse : List Char → ℚ) (r : LedgerRecord)
    (ho : r.org.isSome = true) (hp : r.proj.isSome = true) :
    (deviceInfoToModel isoParse r).isSome = true := by
  obtain ⟨o, ho'⟩ := Option.isSome_iff_exists.1 ho
  obtain ⟨p, hp'⟩ := Option.isSome_iff_exists.1 hp
  simp [deviceInfoToModel, ho', hp']

/-- The model builder succeeds on any well-formed ledger record (with any
well-formed optional fleet record). -/
theorem deviceEntityToModel_ledger_isSome (isoParse : List Char → ℚ)
    (fleetEntity : Option FleetEntity) (r : LedgerRecord)
    (schemaEntity : Option SchemaEntityDict)
    (streamPreview : Option (List Char × Option ℚ)) (flag : Bool)
    (hr : ledgerRecordWF r = true)
    (hf : ∀ f, fleetEntity = some f → fleetEntityWF f = true) :
    (deviceEntityToModel isoParse fleetEntity (some r) schemaEntity streamPreview
      flag).isSome = true := by
  unfold ledgerRecordWF at hr
  simp only [Bool.and_eq_true] at hr
  obtain ⟨s, hs⟩ := Option.isSome_iff_exists.1 hr.1.1
  obtain ⟨o, ho⟩ := Option.isSome_iff_exists.1 hr.1.2
  obtain ⟨conn, hconn⟩ := Option.isSome_iff_exists.1 (connectivityToModel_isSome fleetEntity flag hf)
  obtain ⟨info, hinfo⟩ := Option.isSome_iff_exists.1
    (deviceInfoToModel_isSome isoParse r hr.1.2 hr.2)
  cases fleetEntity with
  | none => simp [deviceEntityToModel, hs, ho, hconn, hinfo]
  | some f => simp [deviceEntityToModel, hs, ho, hconn, hinfo]

/-- The model builder succeeds on any well-formed fleet record without a
ledger record. -/
theorem deviceEntityToModel_fleet_isSome (isoParse : List Char → ℚ)
    (f : FleetEntity) (schemaEntity : Option SchemaEntityDict)
    (streamPreview : Option (List Char × Option ℚ)) (flag : Bool)
    (hf : fleetEntityWF f = true) :
    (deviceEntityToModel isoParse (some f) none schemaEntity streamPreview
      flag).isSome = true := by
  obtain ⟨conn, hconn⟩ := Option.isSome_iff_exists.1
    (connectivityToModel_isSome (some f) flag (by intro g hg; cases hg; exact hf))
  simp [deviceEntityToModel, hconn]

theorem mapM_option_isSome {α β : Type} (g : α → Option β) (l : List α)
    (h : ∀ a ∈ l, (g a).isSome = true) : (l.mapM g).isSome = true := by
  induction l with
  | nil => rw [List.mapM_nil]; rfl
  | cons a l ih =>
    obtain ⟨b, hb⟩ := Option.isSome_iff_exists.1 (h a (List.mem_cons_self a l))
    obtain ⟨bs, hbs⟩ := Option.isSome_iff_exists.1
      (ih (fun x hx => h x (List.mem_cons_of_mem a hx)))
    rw [List.mapM_cons, hb, hbs]
    rfl

theorem mapM_option_spec {α β : Type} (g : α → Option β) (l : List α)
    (res : List β) (h : l.mapM g = some res) :
    res.length = l.length ∧ ∀ i a, l.get? i = some a → res.get? i = g a := by
  induction l generalizing res with
  | nil =>
    simp only [List.mapM_nil, pure, Option.some.injEq] at h
    subst h
    exact ⟨rfl, by intro i a ha; cases i <;> cases ha⟩
  | cons a l ih =>
    simp only [List.mapM_cons, bind, Option.bind_eq_some, pure,
      Option.some.injEq] at h
    obtain ⟨b, hb, bs, hbs, hres⟩ := h
    subst hres
    obtain ⟨hlen, hget⟩ := ih bs hbs
    refine ⟨by simp [hlen], ?_⟩
    intro i x hx
    cases i with
    | zero =>
      cases hx
      simpa using hb.symm
    | succ i =>
      simpa using hget i x (by simpa using hx)

theorem deviceEntityToModel_preview_fields (isoParse : List Char → ℚ)
    (fleetEntity : Option FleetEntity) (r : LedgerRecord)
    (schemaEntity : Option SchemaEntityDict) (p : List Char) (t : Option ℚ)
    (flag : Bool) (d : Device)
    (hwf : ledgerRecordWF r = true)
    (h : deviceEntityToModel isoParse fleetEntity (some r) schemaEntity
      (some (p, t)) flag = some d) :
    d.streamPreview = some p ∧ d.lastStreamBatchTimestamp = some t := by
  unfold ledgerRecordWF at hwf
  simp only [Bool.and_eq_true] at hwf
  obtain ⟨s, hs⟩ := Option.isSome_iff_exists.1 hwf.1.1
  obtain ⟨o, ho⟩ := Option.isSome_iff_exists.1 hwf.1.2
  obtain ⟨info, hinfo⟩ := Option.isSome_iff_exists.1
    (deviceInfoToModel_isSome isoParse r hwf.1.2 hwf.2)
  cases fleetEntity with
  | none =>
    obtain ⟨conn, hconn⟩ := Option.isSome_iff_exists.1
      (connectivityToModel_isSome none flag (by intro f hf; cases hf))
    simp only [deviceEntityToModel, hs, ho, hconn, hinfo, bind, Option.some_bind,
      pure] at h
    rw [if_neg (by simp)] at h
    simp only [Option.map_some', Option.some_bind, Option.some.injEq] at h
    subst h
    exact ⟨rfl, rfl⟩
  | some f =>
    cases hcm : connectivityToModel (some f) flag with
    | none =>
      simp only [deviceEntityToModel, hs, ho, hcm, hinfo, bind, Option.some_bind,
        Option.none_bind, pure, ite_self] at h
      exact Option.noConfusion h
    | some conn =>
      simp only [deviceEntityToModel, hs, ho, hcm, hinfo, bind, Option.some_bind,
        pure] at h
      rw [if_neg (by simp)] at h
      simp only [Option.map_some', Option.some_bind, Option.some.injEq] at h
      subst h
      exact ⟨rfl, rfl⟩

/-- C8 amended: on a lookup that reaches the preview step (the device name
passes the allow-list regex and the canonicalized group filters carry no
double quote, so the fleet-index lookup validation does not raise first), a
preview-fetch failure that is an application-level internal error (`AppError`
with the internal error code — the kind the own error handling of the
stream-data module raises) is caught, and the device lookup still succeeds
with the preview replaced by the placeholder; failures of other shapes (a
non-internal `AppError`, or a non-`AppError` exception such as a transport
error) are not downgraded and fail the lookup. -/
theorem repoGetDevice_preview_internal_error_degraded
    (fleetFind : Option FleetEntity)
    (previewFetch : List Char → Except PyErr (Option (List Char × Option ℚ)))
    (md5 : List Char → List Char) (schemasTable : List SchemaItem)
    (isoParse : List Char → ℚ) (table : List LedgerRecord)
    (provider organization : Option (List Char)) (deviceName : List Char)
    (r : LedgerRecord) (m : List Char)
    (hname : deviceNameFullmatch deviceName = true)
    (hfound : deviceLedgerFindDevice table (maybeCanonicalizeGroupName provider)
      (maybeCanonicalizeGroupName organization) deviceName = some r)
    (hfalsy : r.isFalsy = false)
    (hwfR : ledgerRecordWF r = true)
    (hwfF : ∀ f, fleetFind = some f → fleetEntityWF f = true)
    (hschema : r.json_schema = none)
    (hqp : optionContainsQuote (maybeCanonicalizeGroupName provider) = false)
    (hqo : optionContainsQuote (maybeCanonicalizeGroupName organization) = false)
    (hfail : previewRawStep previewFetch r = .error (.appError internalErrorCode m)) :
    ∃ d, repoGetDevice fleetFind previewFetch md5 schemasTable isoParse table
        provider organization deviceName false = .ok d ∧
      d.streamPreview = some "<error fetching preview>".data ∧
      d.lastStreamBatchTimestamp = some none := by
  have hffd : fleetIndexFindDevice fleetFind (maybeCanonicalizeGroupName provider)
      (maybeCanonicalizeGroupName organization) deviceName = .ok fleetFind := by
    unfold fleetIndexFindDevice
    rw [if_neg (by simp [hname]), if_neg (by simp [hqp, hqo])]
  have hpv : getDevicePreviewStep previewFetch r =
      .ok (some ("<error fetching preview>".data, none)) := by
    unfold getDevicePreviewStep
    rw [hfail]
    simp
  have hbuilder := deviceEntityToModel_ledger_isSome isoParse fleetFind r none
    (some ("<error fetching preview>".data, none)) true hwfR hwfF
  obtain ⟨d, hd⟩ := Option.isSome_iff_exists.1 hbuilder
  refine ⟨d, ?_, (deviceEntityToModel_preview_fields isoParse fleetFind r
    none _ _ true d hwfR hd).1,
    (deviceEntityToModel_preview_fields isoParse fleetFind r
      none _ _ true d hwfR hd).2⟩
  simp only [repoGetDevice, hname, hfound, hfalsy, hschema, hffd, hpv, bind,
    Except.bind, hd]
  simp [hd, pure, Except.pure]

theorem repoGetDevice_preview_internal_error_degraded_witness :
    ∃ d, repoGetDevice none (fun _ => .error (appInternalError "boom".data))
        (fun _ => []) [] (fun _ => 0)
        [{ serialNumber := some "dev-9".data, org := some "o".data,
           proj := some "p".data, provStatus := some "done".data,
           policyDoc := some { statement :=
             [{ action := "iot:Publish".data,
                resource := "arn:topic/data/x".data }] } }]
        none none "dev-9".data false = .ok d ∧
      d.streamPreview = some "<error fetching preview>".data ∧
      d.lastStreamBatchTimestamp = some none :=
  repoGetDevice_preview_internal_error_degraded none
    (fun _ => .error (appInternalError "boom".data)) (fun _ => []) [] (fun _ => 0)
    [{ serialNumber := some "dev-9".data, org := some "o".data,
       proj := some "p".data, provStatus := some "done".data,
       policyDoc := some { statement :=
         [{ action := "iot:Publish".data,
            resource := "arn:topic/data/x".data }] } }]
    none none "dev-9".data
    { serialNumber := some "dev-9".data, org := some "o".data,
      proj := some "p".data, provStatus := some "done".data,
      policyDoc := some { statement :=
        [{ action := "iot:Publish".data,
           resource := "arn:topic/data/x".data }] } }
    "boom".data
    (by decide) (by decide) (by decide) (by decide)
    (by intro f hf; cases hf) (by decide) (by decide) (by decide) (by decide)

/-- C8 fails as stated for failures that are not application-level internal
errors: a transport-level exception raised while fetching the preview (here a
non-`AppError` `HTTPError`) is not caught, no placeholder is substituted, and
the whole device lookup fails with that exception. -/
theorem repoGetDevice_preview_other_error_propagates :
    repoGetDevice none (fun _ => .error (.otherError "HTTPError".data))
      (fun _ => []) [] (fun _ => 0)
      [{ serialNumber := some "dev-9".data, org := some "o".data,
         proj := some "p".data, provStatus := some "done".data,
         policyDoc := some { statement :=
           [{ action := "iot:Publish".data,
              resource := "arn:topic/data/x".data }] } }]
      none none "dev-9".data false = .error (.otherError "HTTPError".data) := by
  decide

/-- An unpaged ledger listing (no page, no page size) performs one unlimited
scan over the whole table and returns every record passing the scan filter,
with no continuation. -/
theorem deviceLedgerListDevices_unpaged (table : List LedgerRecord)
    (provider organization nameLike : Option (List Char))
    (label : Option DeviceCustomLabel) (unprovisionedOnly : Bool) :
    deviceLedgerListDevices table provider organization nameLike label none none
      unprovisionedOnly =
    (none, table.filter
      (ledgerScanPred provider organization nameLike label unprovisionedOnly)) := by
  simp [deviceLedgerListDevices, scanTableLoop, scanLimit]

theorem fleetLookup_eq_none_iff (fleetItems : List FleetEntity) (name : List Char) :
    fleetLookup fleetItems name = none ↔ ∀ f ∈ fleetItems, f.thingName ≠ name := by
  unfold fleetLookup
  rw [List.getLast?_eq_none_iff, List.filter_eq_nil_iff]
  constructor
  · intro h f hf hname
    exact h f hf (by simpa using hname)
  · intro h f hf hp
    exact h f hf (by simpa using hp)

theorem fleetLookup_mem (fleetItems : List FleetEntity) (name : List Char)
    (f : FleetEntity) (h : fleetLookup fleetItems name = some f) :
    f ∈ fleetItems ∧ f.thingName = name := by
  unfold fleetLookup at h
  have hmem := List.mem_of_mem_getLast? h
  have := List.mem_filter.1 hmem
  exact ⟨this.1, by simpa using this.2⟩

/-- The name of a device built from a ledger record with serial `s` is `s`
whenever any paired fleet record also carries that name. -/
theorem deviceEntityToModel_name_eq (isoParse : List Char → ℚ)
    (fleetEntity : Option FleetEntity) (r : LedgerRecord)
    (schemaEntity : Option SchemaEntityDict)
    (streamPreview : Option (List Char × Option ℚ)) (flag : Bool) (d : Device)
    (s : List Char)
    (hwf : ledgerRecordWF r = true)
    (hs : r.serialNumber = some s)
    (hfm : ∀ f, fleetEntity = some f → f.thingName = s)
    (h : deviceEntityToModel isoParse fleetEntity (some r) schemaEntity
      streamPreview flag = some d) :
    d.name = s := by
  unfold ledgerRecordWF at hwf
  simp only [Bool.and_eq_true] at hwf
  obtain ⟨o, ho⟩ := Option.isSome_iff_exists.1 hwf.1.2
  obtain ⟨info, hinfo⟩ := Option.isSome_iff_exists.1
    (deviceInfoToModel_isSome isoParse r hwf.1.2 hwf.2)
  cases fleetEntity with
  | none =>
    obtain ⟨conn, hconn⟩ := Option.isSome_iff_exists.1
      (connectivityToModel_isSome none flag (by intro f hf; cases hf))
    simp only [deviceEntityToModel, hs, ho, hconn, hinfo, bind, Option.some_bind,
      pure] at h
    rw [if_neg (by simp)] at h
    simp only [Option.map_some', Option.some_bind, Option.some.injEq] at h
    subst h
    rfl
  | some f =>
    cases hcm : connectivityToModel (some f) flag with
    | none =>
      simp only [deviceEntityToModel, hs, ho, hcm, hinfo, bind, Option.some_bind,
        Option.none_bind, pure, ite_self] at h
      exact Option.noConfusion h
    | some conn =>
      simp only [deviceEntityToModel, hs, ho, hcm, hinfo, bind, Option.some_bind,
        pure] at h
      rw [if_neg (by simp)] at h
      simp only [Option.map_some', Option.some_bind, Option.some.injEq] at h
      subst h
      exact hfm f rfl

/-- C7: the export fetches every ledger record passing the (canonicalized,
label-free) scan filter with a single exhaustive scan, plus one unpaged
fleet-index search (`fleetItems`), and returns exactly one device per fetched
ledger record: built from both records when a fleet record of the same name
exists (the last one for duplicate names, per the Python dictionary), and
ledger-only with the unprovisioned flag set when there is none; fleet-only
records with no ledger counterpart contribute no device. -/
theorem exportDevices_outer_merge (isoParse : List Char → ℚ)
    (fleetItems : List FleetEntity) (table : List LedgerRecord)
    (provider organization : Option (List Char)) :
    let fetched := table.filter (ledgerScanPred
      (maybeCanonicalizeGroupName provider) (maybeCanonicalizeGroupName organization)
      none none false)
    (∀ r ∈ fetched, ledgerRecordWF r = true) →
    (∀ f ∈ fleetItems, fleetEntityWF f = true) →
    ∃ devs, exportDevices isoParse fleetItems table provider organization = some devs ∧
      devs.length = fetched.length ∧
      (∀ i le, fetched.get? i = some le → ∃ s, le.serialNumber = some s ∧
        devs.get? i = deviceEntityToModel isoParse (fleetLookup fleetItems s)
          (some le) none none (fleetLookup fleetItems s).isNone) ∧
      (∀ le ∈ fetched, ∀ s, le.serialNumber = some s →
        (fleetLookup fleetItems s = none ↔ ∀ f ∈ fleetItems, f.thingName ≠ s)) ∧
      (∀ f ∈ fleetItems, (∀ le ∈ fetched, le.serialNumber ≠ some f.thingName) →
        ∀ d ∈ devs, d.name ≠ f.thingName) := by
  intro fetched hwfL hwfF
  have hexp : exportDevices isoParse fleetItems table provider organization =
      mergeEntitiesToModels isoParse fleetItems fetched := by
    simp only [exportDevices, deviceLedgerListDevices_unpaged]
  have hg : ∀ le ∈ fetched,
      ((do
        let serial ← le.serialNumber
        let fleetEntity := fleetLookup fleetItems serial
        deviceEntityToModel isoParse fleetEntity (some le) none none
          fleetEntity.isNone : Option Device)).isSome = true := by
    intro le hle
    obtain ⟨s, hs⟩ := Option.isSome_iff_exists.1 (by
      have := hwfL le hle
      unfold ledgerRecordWF at this
      simp only [Bool.and_eq_true] at this
      exact this.1.1)
    rw [hs]
    simp only [bind, Option.some_bind]
    exact deviceEntityToModel_ledger_isSome isoParse (fleetLookup fleetItems s) le
      none none (fleetLookup fleetItems s).isNone (hwfL le hle)
      (fun f hf => hwfF f (fleetLookup_mem fleetItems s f hf).1)
  obtain ⟨devs, hdevs⟩ := Option.isSome_iff_exists.1
    (mapM_option_isSome _ fetched hg)
  obtain ⟨hlen, hget⟩ := mapM_option_spec _ fetched devs hdevs
  refine ⟨devs, by rw [hexp]; exact hdevs, hlen, ?_, ?_, ?_⟩
  · intro i le hle
    obtain ⟨s, hs⟩ := Option.isSome_iff_exists.1 (by
      have hmem : le ∈ fetched := by
        have := List.get?_mem hle
        exact this
      have := hwfL le hmem
      unfold ledgerRecordWF at this
      simp only [Bool.and_eq_true] at this
      exact this.1.1)
    refine ⟨s, hs, ?_⟩
    rw [hget i le hle, hs]
    simp only [bind, Option.some_bind]
  · intro le _ s _
    exact fleetLookup_eq_none_iff fleetItems s
  · intro f hf hnoledger d hd
    obtain ⟨i, hi⟩ := List.mem_iff_get?.1 hd
    have hilen : i < fetched.length := by
      rw [← hlen]
      by_contra hge
      rw [List.get?_eq_none.2 (Nat.le_of_not_lt hge)] at hi
      cases hi
    obtain ⟨le, hle⟩ : ∃ le, fetched.get? i = some le :=
      ⟨fetched.get ⟨i, hilen⟩, List.get?_eq_some.2 ⟨hilen, rfl⟩⟩
    have hmemle : le ∈ fetched := List.get?_mem hle
    obtain ⟨s, hs⟩ := Option.isSome_iff_exists.1 (by
      have := hwfL le hmemle
      unfold ledgerRecordWF at this
      simp only [Bool.and_eq_true] at this
      exact this.1.1)
    have hmm := hget i le hle
    rw [hi, hs] at hmm
    simp only [bind, Option.some_bind] at hmm
    have hname := deviceEntityToModel_name_eq isoParse (fleetLookup fleetItems s)
      le none none (fleetLookup fleetItems s).isNone d s (hwfL le hmemle) hs
      (fun f' hf' => (fleetLookup_mem fleetItems s f' hf').2) hmm.symm
    rw [hname]
    intro hcontra
    exact hnoledger le hmemle (by rw [hs, hcontra])

theorem exportDevices_outer_merge_witness :
    ∃ devs,
      exportDevices (fun _ => 0) [{ thingName := "dev-7".data }] [{ serialNumber := some "dev-7".data, org := some "o".data, proj := some "p".data, customLabel := some "DEPLOYED".data }] none none = some devs ∧
      devs.length = ([{ serialNumber := some "dev-7".data, org := some "o".data, proj := some "p".data, customLabel := some "DEPLOYED".data : LedgerRecord }].filter (ledgerScanPred none none none none false)).length ∧
      (∀ i le, ([{ serialNumber := some "dev-7".data, org := some "o".data, proj := some "p".data, customLabel := some "DEPLOYED".data : LedgerRecord }].filter (ledgerScanPred none none none none false)).get? i = some le →
        ∃ s, le.serialNumber = some s ∧
          devs.get? i = deviceEntityToModel (fun _ => 0) (fleetLookup [{ thingName := "dev-7".data : FleetEntity }] s) (some le) none none (fleetLookup [{ thingName := "dev-7".data : FleetEntity }] s).isNone) ∧
      (∀ le ∈ ([{ serialNumber := some "dev-7".data, org := some "o".data, proj := some "p".data, customLabel := some "DEPLOYED".data : LedgerRecord }].filter (ledgerScanPred none none none none false)), ∀ s, le.serialNumber = some s →
        (fleetLookup [{ thingName := "dev-7".data : FleetEntity }] s = none ↔ ∀ f ∈ [{ thingName := "dev-7".data : FleetEntity }], f.thingName ≠ s)) ∧
      (∀ f ∈ [{ thingName := "dev-7".data : FleetEntity }],
        (∀ le ∈ ([{ serialNumber := some "dev-7".data, org := some "o".data, proj := some "p".data, customLabel := some "DEPLOYED".data : LedgerRecord }].filter (ledgerScanPred none none none none false)), le.serialNumber ≠ some f.thingName) →
        ∀ d ∈ devs, d.name ≠ f.thingName) :=
  exportDevices_outer_merge (fun _ => 0) [{ thingName := "dev-7".data }] [{ serialNumber := some "dev-7".data, org := some "o".data, proj := some "p".data, customLabel := some "DEPLOYED".data }] none none (by decide) (by decide)

/-- C1: a first-page aggregated listing without a label filter whose ledger
phase returns fewer than `pageSize` items and no continuation invokes the
fleet phase exactly once, with the canonicalized group filters, no fleet
cursor, requested page size `pageSize` minus the number of ledger items, and
`active_only=True` (the spec-modelled restriction to active devices), and,
provided any given `name_like` passes the allow-list regex of the fleet
adapter (otherwise the adapter raises before querying), the call returns
normally. -/
theorem repoListDevices_fleet_budget
    (fleet : FleetQuery → Option (List Char) × List FleetEntity)
    (decodeKey : List Char → Except PyErr (List LedgerRecord))
    (encodeKey : List LedgerRecord → List Char) (isoParse : List Char → ℚ)
    (table : List LedgerRecord) (provider organization nameLike : Option (List Char))
    (n : Nat) (items : List LedgerRecord)
    (hscan : deviceLedgerListDevices table (maybeCanonicalizeGroupName provider)
      (maybeCanonicalizeGroupName organization) nameLike none none (some n) true =
      (none, items))
    (hlt : items.length < n)
    (hnl : ∀ nl, nameLike = some nl → deviceNameFullmatch nl = true)
    (hwfL : ∀ r ∈ items, ledgerRecordWF r = true)
    (hwfF : ∀ f ∈ (fleet { provider := maybeCanonicalizeGroupName provider, organization := maybeCanonicalizeGroupName organization, nameLike := nameLike, page := none, pageSize := some (n - items.length), activeOnly := true }).2,
      fleetEntityWF f = true) :
    ∃ result, repoListDevices fleet decodeKey encodeKey isoParse table provider
        organization nameLike none none (some n) =
      .ok (result, [{ provider := maybeCanonicalizeGroupName provider, organization := maybeCanonicalizeGroupName organization, nameLike := nameLike, page := none, pageSize := some (n - items.length), activeOnly := true }]) := by
  cases hfq : fleet { provider := maybeCanonicalizeGroupName provider, organization := maybeCanonicalizeGroupName organization, nameLike := nameLike, page := none, pageSize := some (n - items.length), activeOnly := true } with
  | mk tok fitems =>
  rw [hfq] at hwfF
  simp only at hwfF
  obtain ⟨lm, hlm⟩ := Option.isSome_iff_exists.1
    (mapM_option_isSome
      (fun entity => deviceEntityToModel isoParse none (some entity) none none true)
      items
      (fun r hr => deviceEntityToModel_ledger_isSome isoParse none r none none true
        (hwfL r hr) (fun f hf => by cases hf)))
  obtain ⟨fm, hfm⟩ := Option.isSome_iff_exists.1
    (mapM_option_isSome
      (fun entity => deviceEntityToModel isoParse (some entity) none none none true)
      fitems
      (fun f hf => deviceEntityToModel_fleet_isSome isoParse f none none true
        (hwfF f hf)))
  have hmods : searchResultToModel isoParse items fitems true = some (lm ++ fm) := by
    simp only [searchResultToModel, hlm, hfm, bind, Option.some_bind]
  have hfl : fleetIndexListDevices fleet { provider := maybeCanonicalizeGroupName provider, organization := maybeCanonicalizeGroupName organization, nameLike := nameLike, page := none, pageSize := some (n - items.length), activeOnly := true } = .ok (tok, fitems) := by
    rw [← hfq]
    cases hn : nameLike with
    | none => simp [fleetIndexListDevices, hn]
    | some nl => simp [fleetIndexListDevices, hn, hnl nl hn]
  rcases tok with _ | (_ | ⟨c, cs⟩) <;>
    simp [repoListDevices, bind, Except.bind, pure, Except.pure, loadPage,
      decodeLedgerInnerPage, Option.isSome, pyTruthy, Option.map, hscan, hlt,
      hfl, hmods]

theorem repoListDevices_fleet_budget_witness :
    ∃ result,
      repoListDevices (fun _ => (none, [])) (fun _ => .error .ledgerConditionFailed)
        (fun _ => []) (fun _ => 0)
        [{ serialNumber := some "a1".data, jwtGroup := some "acme-corp".data, org := some "o".data, proj := some "p".data, customLabel := some "DEPLOYED".data },
         { serialNumber := some "a2".data, jwtGroup := some "acme-corp".data, org := some "o".data, proj := some "p".data, customLabel := some "DEPLOYED".data }]
        (some "acme corp".data) none none none none (some 3) =
      .ok (result, [{ provider := some "acme-corp".data, organization := none, nameLike := none, page := none, pageSize := some 1, activeOnly := true }]) :=
  repoListDevices_fleet_budget (fun _ => (none, []))
    (fun _ => .error .ledgerConditionFailed) (fun _ => []) (fun _ => 0)
    [{ serialNumber := some "a1".data, jwtGroup := some "acme-corp".data, org := some "o".data, proj := some "p".data, customLabel := some "DEPLOYED".data },
     { serialNumber := some "a2".data, jwtGroup := some "acme-corp".data, org := some "o".data, proj := some "p".data, customLabel := some "DEPLOYED".data }]
    (some "acme corp".data) none none 3
    [{ serialNumber := some "a1".data, jwtGroup := some "acme-corp".data, org := some "o".data, proj := some "p".data, customLabel := some "DEPLOYED".data },
     { serialNumber := some "a2".data, jwtGroup := some "acme-corp".data, org := some "o".data, proj := some "p".data, customLabel := some "DEPLOYED".data }]
    (by decide) (by decide) (by intro nl h; cases h) (by decide) (by simp)
